import Mathlib

/-!
Learning-GTK / Ex2 / example-2.c

A shallow embedding of `print_hello`, `activate` and `main` of `example-2.c`.

The program is a straight line of calls into the GUI toolkit.  The toolkit is
not part of the repository, so its objects are kept in an explicit store
(`Toolkit`) and each toolkit call the program makes is a function on that
store.  Widget addresses are indices into the store; a `gpointer` is either
`NULL` or such an address.
-/

namespace Example2

/-! ## Toolkit objects -/

/-- A `gpointer`: `NULL` (`none`) or the address of a toolkit object. -/
abbrev gpointer := Option Nat

/-- The widget classes the program instantiates. -/
inductive WidgetKind where
  | window
  | grid
  | button
deriving DecidableEq, Repr

/-- The functions the program passes through `G_CALLBACK`. -/
inductive Callback where
  | print_hello
  | gtk_widget_destroy
  | activate
deriving DecidableEq, Repr

/-- One signal connection: the signal name, the callback, the user data and
whether the connection was made with `g_signal_connect_swapped`. -/
structure Handler where
  signal : String
  callback : Callback
  data : gpointer
  swapped : Bool
deriving DecidableEq, Repr

/-- A child of a grid with the cell rectangle it was attached at. -/
structure GridChild where
  child : Nat
  left : Int
  top : Int
  width : Int
  height : Int
deriving DecidableEq, Repr

/-- A widget record. -/
structure Widget where
  kind : WidgetKind
  application : Option Nat
  title : String
  border_width : Nat
  label : String
  parent : Option Nat
  child : Option Nat
  cells : List GridChild
  handlers : List Handler
  visible : Bool
  destroyed : Bool
deriving DecidableEq, Repr

/-- The toolkit store: every widget allocated so far (the address of a widget
is its index), the list of top-level windows, and the text printed so far. -/
structure Toolkit where
  widgets : List Widget
  toplevels : List Nat
  output : String
deriving DecidableEq, Repr

/-- The store of a process that has not created any widget yet. -/
def Toolkit.init : Toolkit := { widgets := [], toplevels := [], output := "" }

/-- A freshly constructed widget of class `k`. -/
def Widget.fresh (k : WidgetKind) : Widget :=
  { kind := k, application := none, title := "", border_width := 0, label := "",
    parent := none, child := none, cells := [], handlers := [],
    visible := false, destroyed := false }

/-- Rewrite the element at index `i` of a list, if there is one. -/
def updateAt {α : Type} : List α → Nat → (α → α) → List α
  | [], _, _ => []
  | x :: xs, 0, f => f x :: xs
  | x :: xs, i + 1, f => x :: updateAt xs i f

/-- Rewrite the widget at address `w`. -/
def Toolkit.update (s : Toolkit) (w : Nat) (f : Widget → Widget) : Toolkit :=
  { s with widgets := updateAt s.widgets w f }

/-- The widgets a container holds: the single child of a bin followed by the
children of a grid. -/
def Widget.children (x : Widget) : List Nat :=
  x.child.toList ++ x.cells.map (fun c => c.child)

/-! ## Toolkit calls made by the program -/

/-- Modelled from the spec: toolkit call `gtk_application_window_new`, which
creates a top-level window owned by the application `app`. -/
def gtk_application_window_new (s : Toolkit) (app : Nat) : Toolkit × Nat :=
  ({ s with
      widgets := s.widgets ++ [{ Widget.fresh .window with application := some app }],
      toplevels := s.toplevels ++ [s.widgets.length] },
   s.widgets.length)

/-- Modelled from the spec: toolkit call `gtk_window_set_title`; it acts on
windows only. -/
def gtk_window_set_title (s : Toolkit) (window : Nat) (title : String) : Toolkit :=
  s.update window (fun x => if x.kind = .window then { x with title := title } else x)

/-- Modelled from the spec: toolkit call `gtk_container_set_border_width`
(window, grid and button are all containers). -/
def gtk_container_set_border_width (s : Toolkit) (container : Nat) (n : Nat) : Toolkit :=
  s.update container (fun x => { x with border_width := n })

/-- Modelled from the spec: toolkit call `gtk_grid_new`. -/
def gtk_grid_new (s : Toolkit) : Toolkit × Nat :=
  ({ s with widgets := s.widgets ++ [Widget.fresh .grid] }, s.widgets.length)

/-- Modelled from the spec: toolkit call `gtk_button_new_with_label`. -/
def gtk_button_new_with_label (s : Toolkit) (label : String) : Toolkit × Nat :=
  ({ s with widgets := s.widgets ++ [{ Widget.fresh .button with label := label }] },
   s.widgets.length)

/-- Modelled from the spec: toolkit call `gtk_container_add` for a
single-child container (window or button).  The call is refused when the
container already has a child, when the widget already has a parent, or when
the widget is a top-level window; a grid takes its children through
`gtk_grid_attach`. -/
def gtk_container_add (s : Toolkit) (container : Nat) (widget : Nat) : Toolkit :=
  match s.widgets[container]?, s.widgets[widget]? with
  | some c, some x =>
    if c.kind ≠ .grid ∧ c.child = none ∧ x.parent = none ∧ x.kind ≠ .window
        ∧ container ≠ widget then
      (s.update container (fun y => { y with child := some widget })).update widget
        (fun y => { y with parent := some container })
    else s
  | _, _ => s

/-- Modelled from the spec: toolkit call `gtk_grid_attach`.  The call is
refused unless `grid` is a grid, the child has no parent and both spans are
positive. -/
def gtk_grid_attach (s : Toolkit) (grid : Nat) (child : Nat)
    (left top width height : Int) : Toolkit :=
  match s.widgets[grid]?, s.widgets[child]? with
  | some g, some x =>
    if g.kind = .grid ∧ x.parent = none ∧ x.kind ≠ .window ∧ 0 < width ∧ 0 < height
        ∧ grid ≠ child then
      (s.update grid (fun y =>
          { y with cells := y.cells ++ [{ child := child, left := left, top := top,
                                          width := width, height := height }] })).update child
        (fun y => { y with parent := some grid })
    else s
  | _, _ => s

/-- Modelled from the spec: `g_signal_connect` on a widget. -/
def g_signal_connect (s : Toolkit) (instance_ : Nat) (signal : String)
    (c_handler : Callback) (data : gpointer) : Toolkit :=
  s.update instance_ (fun x =>
    { x with handlers := x.handlers ++
        [{ signal := signal, callback := c_handler, data := data, swapped := false }] })

/-- Modelled from the spec: `g_signal_connect_swapped` on a widget; on
emission the user data is passed where the instance would be. -/
def g_signal_connect_swapped (s : Toolkit) (instance_ : Nat) (signal : String)
    (c_handler : Callback) (data : gpointer) : Toolkit :=
  s.update instance_ (fun x =>
    { x with handlers := x.handlers ++
        [{ signal := signal, callback := c_handler, data := data, swapped := true }] })

/-- Recursive show with a recursion budget: the children first, then the
widget itself. -/
def show_all_aux : Nat → Toolkit → Nat → Toolkit
  | 0, s, _ => s
  | fuel + 1, s, w =>
    match s.widgets[w]? with
    | none => s
    | some x =>
      ((x.children).foldl (fun acc c => show_all_aux fuel acc c) s).update w
        (fun y => { y with visible := true })

/-- Modelled from the spec: toolkit call `gtk_widget_show_all`, which marks
the widget and everything it contains, directly or indirectly, as visible.
A containment chain is never longer than the number of widgets. -/
def gtk_widget_show_all (s : Toolkit) (w : Nat) : Toolkit :=
  show_all_aux s.widgets.length s w

/-- The state a widget is left in by its destruction. -/
def Widget.dispose (y : Widget) : Widget :=
  { y with parent := none, child := none, cells := [], handlers := [],
           visible := false, destroyed := true }

/-- Take `w` out of a container record. -/
def Widget.remove (w : Nat) (y : Widget) : Widget :=
  { y with child := if y.child = some w then none else y.child,
           cells := y.cells.filter (fun c => c.child ≠ w) }

/-- Recursive destruction with a recursion budget: the children are destroyed,
then the widget is taken out of its parent, loses its handlers and is taken
off the list of top-level windows. -/
def destroy_aux : Nat → Toolkit → Nat → Toolkit
  | 0, s, _ => s
  | fuel + 1, s, w =>
    match s.widgets[w]? with
    | none => s
    | some x =>
      let s1 := (x.children).foldl (fun acc c => destroy_aux fuel acc c) s
      let s2 := match (s1.widgets[w]?).bind (fun y => y.parent) with
        | some p => s1.update p (Widget.remove w)
        | none => s1
      let s3 := s2.update w Widget.dispose
      { s3 with toplevels := s3.toplevels.filter (fun t => t ≠ w) }

/-- Modelled from the spec: toolkit call `gtk_widget_destroy`.  A widget inside
a container is removed from it, the children of a container are destroyed
recursively, a top-level window leaves the list of top-level windows, and the
signal handlers of a destroyed widget are disconnected. -/
def gtk_widget_destroy (s : Toolkit) (w : Nat) : Toolkit :=
  destroy_aux s.widgets.length s w

/-- Modelled from the spec: `g_print`, which writes the text to the output. -/
def g_print (s : Toolkit) (text : String) : Toolkit :=
  { s with output := s.output ++ text }

/-! ## The program -/

/-- The callback `print_hello` (example-2.c, lines 3-6). -/
def print_hello (s : Toolkit) (_widget : gpointer) (_data : gpointer) : Toolkit :=
  g_print s "Hello World\n"

/-- The handler `activate` (example-2.c, lines 8-58). -/
def activate (s : Toolkit) (app : Nat) (_user_data : gpointer) : Toolkit :=
  let (s, window) := gtk_application_window_new s app
  let s := gtk_window_set_title s window "Window"
  let s := gtk_container_set_border_width s window 10
  let (s, grid) := gtk_grid_new s
  let s := gtk_container_add s window grid
  let (s, button) := gtk_button_new_with_label s "Button 1"
  let s := g_signal_connect s button "clicked" .print_hello none
  let s := gtk_grid_attach s grid button 0 0 1 1
  let (s, button) := gtk_button_new_with_label s "Button 2"
  let s := g_signal_connect s button "clicked" .print_hello none
  let s := gtk_grid_attach s grid button 1 0 1 1
  let (s, button) := gtk_button_new_with_label s "Quit"
  let s := g_signal_connect_swapped s button "clicked" .gtk_widget_destroy (some window)
  let s := gtk_grid_attach s grid button 0 1 2 1
  gtk_widget_show_all s window

/-- The part of `activate` before its last call (example-2.c, lines 15-52):
the store it has built so far, and the address held in `window`. -/
def activate_tree (s : Toolkit) (app : Nat) (_user_data : gpointer) : Toolkit × Nat :=
  let (s, window) := gtk_application_window_new s app
  let s := gtk_window_set_title s window "Window"
  let s := gtk_container_set_border_width s window 10
  let (s, grid) := gtk_grid_new s
  let s := gtk_container_add s window grid
  let (s, button) := gtk_button_new_with_label s "Button 1"
  let s := g_signal_connect s button "clicked" .print_hello none
  let s := gtk_grid_attach s grid button 0 0 1 1
  let (s, button) := gtk_button_new_with_label s "Button 2"
  let s := g_signal_connect s button "clicked" .print_hello none
  let s := gtk_grid_attach s grid button 1 0 1 1
  let (s, button) := gtk_button_new_with_label s "Quit"
  let s := g_signal_connect_swapped s button "clicked" .gtk_widget_destroy (some window)
  let s := gtk_grid_attach s grid button 0 1 2 1
  (s, window)

/-! ## Signal emission and user events -/

/-- Call the function behind a `G_CALLBACK` with its two pointer arguments.
`gtk_widget_destroy` and `activate` use only the first one and do nothing on
`NULL`. -/
def invoke (s : Toolkit) (cb : Callback) (a b : gpointer) : Toolkit :=
  match cb with
  | .print_hello => print_hello s a b
  | .gtk_widget_destroy =>
    match a with
    | some w => gtk_widget_destroy s w
    | none => s
  | .activate =>
    match a with
    | some app => activate s app b
    | none => s

/-- Run one connection for an emission on `instance_`: the callback receives
the instance and the user data, in swapped order for a swapped connection. -/
def Handler.run (s : Toolkit) (instance_ : Nat) (h : Handler) : Toolkit :=
  if h.swapped then invoke s h.callback h.data (some instance_)
  else invoke s h.callback (some instance_) h.data

/-- Whether `h` is, in store `s`, still connected to the widget `w`. -/
def connected (s : Toolkit) (w : Nat) (h : Handler) : Bool :=
  match s.widgets[w]? with
  | some y => decide (h ∈ y.handlers)
  | none => false

/-- Modelled from the spec: emission of the signal `signal` on the widget `w`.
The handlers connected for that signal run one at a time, each to completion,
in connection order; a handler disconnected meanwhile is skipped. -/
def g_signal_emit (s : Toolkit) (w : Nat) (signal : String) : Toolkit :=
  match s.widgets[w]? with
  | none => s
  | some x =>
    (x.handlers.filter (fun h => h.signal = signal)).foldl
      (fun acc h => if connected acc w h then h.run acc w else acc) s

/-- What the user can do to the running program: click a widget, or close a
window through the window manager. -/
inductive Event where
  | click (w : Nat)
  | close (w : Nat)
deriving DecidableEq, Repr

/-- Modelled from the spec: dispatch of one event.  A click emits `clicked`;
closing a top-level window destroys it (the program connects nothing that
would veto the close). -/
def dispatch (s : Toolkit) : Event → Toolkit
  | .click w => g_signal_emit s w "clicked"
  | .close w => if w ∈ s.toplevels then gtk_widget_destroy s w else s

/-- Dispatch a sequence of events, one after the other. -/
def dispatch_all (s : Toolkit) (evs : List Event) : Toolkit :=
  evs.foldl dispatch s

/-! ## The addresses `activate` allocates

`activate` run on a store holding `n` widgets allocates the window at `n`,
the grid at `n + 1` and the three buttons at `n + 2`, `n + 3`, `n + 4`. -/

/-- Address of the window created by `activate` run on `s`. -/
def window_of (s : Toolkit) : Nat := s.widgets.length
/-- Address of the grid created by `activate` run on `s`. -/
def grid_of (s : Toolkit) : Nat := s.widgets.length + 1
/-- Address of the first button created by `activate` run on `s`. -/
def button1_of (s : Toolkit) : Nat := s.widgets.length + 2
/-- Address of the second button created by `activate` run on `s`. -/
def button2_of (s : Toolkit) : Nat := s.widgets.length + 3
/-- Address of the third button created by `activate` run on `s`. -/
def quit_of (s : Toolkit) : Nat := s.widgets.length + 4

/-- The grid cells `(column, row)` covered by an attached child. -/
def GridChild.covered (c : GridChild) : List (Int × Int) :=
  (List.range c.width.toNat).flatMap (fun i =>
    (List.range c.height.toNat).map (fun j => (c.left + i, c.top + j)))

/-- Two attached children share no cell. -/
def GridChild.disjoint (c d : GridChild) : Prop :=
  ∀ cell, cell ∈ c.covered → cell ∉ d.covered

/-- The window record `activate` leaves behind when run for `app` on a store
that held `n` widgets. -/
def built_window (n app : Nat) : Widget :=
  { Widget.fresh .window with
      application := some app, title := "Window", border_width := 10,
      child := some (n + 1), visible := true }

/-- The grid record `activate` leaves behind. -/
def built_grid (n : Nat) : Widget :=
  { Widget.fresh .grid with
      parent := some n, visible := true,
      cells := [ { child := n + 2, left := 0, top := 0, width := 1, height := 1 },
                 { child := n + 3, left := 1, top := 0, width := 1, height := 1 },
                 { child := n + 4, left := 0, top := 1, width := 2, height := 1 } ] }

/-- The record `activate` leaves behind for a button connected to
`print_hello`. -/
def built_hello (n : Nat) (label : String) : Widget :=
  { Widget.fresh .button with
      label := label, parent := some (n + 1), visible := true,
      handlers := [ { signal := "clicked", callback := .print_hello, data := none,
                      swapped := false } ] }

/-- The record `activate` leaves behind for the third button. -/
def built_quit (n : Nat) : Widget :=
  { Widget.fresh .button with
      label := "Quit", parent := some (n + 1), visible := true,
      handlers := [ { signal := "clicked", callback := .gtk_widget_destroy,
                      data := some n, swapped := true } ] }

/-- The five widget records `activate` leaves behind when run for `app` on a
store that held `n` widgets. -/
def built (n app : Nat) : List Widget :=
  [built_window n app, built_grid n, built_hello n "Button 1", built_hello n "Button 2",
   built_quit n]

/-- The store right after `activate s app`, with `text` printed since. -/
def live (s : Toolkit) (app : Nat) (text : String) : Toolkit :=
  { widgets := s.widgets ++ built s.widgets.length app,
    toplevels := s.toplevels ++ [s.widgets.length],
    output := s.output ++ text }

/-- The store after the window created by `activate s app` was destroyed, with
`text` printed since the activation. -/
def gone (s : Toolkit) (app : Nat) (text : String) : Toolkit :=
  { widgets := s.widgets ++ (built s.widgets.length app).map Widget.dispose,
    toplevels := s.toplevels.filter (fun t => t < s.widgets.length ∨ s.widgets.length + 4 < t),
    output := s.output ++ text }

/-- Events aimed at the widgets `activate s` created: closing the window, or a
click on any of the five. -/
def own_event (s : Toolkit) (e : Event) : Prop :=
  e ∈ [Event.close (window_of s), Event.click (window_of s), Event.click (grid_of s),
       Event.click (button1_of s), Event.click (button2_of s), Event.click (quit_of s)]

instance (s : Toolkit) (e : Event) : Decidable (own_event s e) := by
  unfold own_event; infer_instance

/-- Clicks on the first or on the second button created by `activate s`. -/
def hello_click (s : Toolkit) (e : Event) : Prop :=
  e = Event.click (button1_of s) ∨ e = Event.click (button2_of s)

instance (s : Toolkit) (e : Event) : Decidable (hello_click s e) := by
  unfold hello_click; infer_instance

/-- Every child a container of `s` refers to has been allocated. -/
def closed (s : Toolkit) : Prop :=
  ∀ x ∈ s.widgets, ∀ c ∈ x.children, c < s.widgets.length

/-- Whether the widget at address `w` exists and has been destroyed. -/
def destroyed_at (t : Toolkit) (w : Nat) : Bool :=
  match t.widgets[w]? with
  | some x => x.destroyed
  | none => false

/-- Whether the widget at address `w` exists and is marked visible. -/
def visible_at (t : Toolkit) (w : Nat) : Bool :=
  match t.widgets[w]? with
  | some x => x.visible
  | none => false

/-- The store `activate s app` hands to `gtk_widget_show_all`: the widget tree
is complete and nothing in it is visible yet. -/
def assembled (s : Toolkit) (app : Nat) : Toolkit :=
  { widgets := s.widgets ++
      (built s.widgets.length app).map (fun y => { y with visible := false }),
    toplevels := s.toplevels ++ [s.widgets.length],
    output := s.output }

/-! ## The application object and `main` -/

/-- Lifecycle phases of the application. -/
inductive Phase where
  | created
  | running
  | stopped
deriving DecidableEq, Repr

/-- The process: the application object made by `main` (its identifier, its
flags, its signal connections, the phases it has entered so far, oldest first,
and whether it has been released) together with the toolkit store. -/
structure Process where
  application_id : String
  flags : Nat
  handlers : List Handler
  lifecycle : List Phase
  released : Bool
  toolkit : Toolkit
deriving DecidableEq, Repr

/-- The flag value `G_APPLICATION_FLAGS_NONE`. -/
def G_APPLICATION_FLAGS_NONE : Nat := 0

/-- Modelled from the spec: toolkit call `gtk_application_new`; the process has
one application object, at address `0`, in phase `created`. -/
def gtk_application_new (application_id : String) (flags : Nat) : Process × Nat :=
  ({ application_id := application_id, flags := flags, handlers := [],
     lifecycle := [.created], released := false, toolkit := Toolkit.init }, 0)

/-- Modelled from the spec: `g_signal_connect` on the application object. -/
def Process.g_signal_connect (p : Process) (_app : Nat) (signal : String)
    (c_handler : Callback) (data : gpointer) : Process :=
  { p with handlers := p.handlers ++
      [{ signal := signal, callback := c_handler, data := data, swapped := false }] }

/-- Modelled from the spec: `g_object_unref` of the last reference to the
application object, which releases it. -/
def g_object_unref (p : Process) (_app : Nat) : Process :=
  { p with released := true }

/-- The type of `g_application_run`: from the process, the application, `argc`
and `argv` to the exit status and the process it leaves, or to nothing when
the loop never exits. -/
abbrev Runner := Process → Nat → Int → List String → Option (Int × Process)

/-- The entry point `main` (example-2.c, lines 60-71), over the `g_application_run` of the
toolkit. -/
def main (g_application_run : Runner) (argc : Int) (argv : List String) :
    Option (Int × Process) :=
  let (p, app) := gtk_application_new "org.gtk.example" G_APPLICATION_FLAGS_NONE
  let p := p.g_signal_connect app "activate" .activate none
  match g_application_run p app argc argv with
  | none => none
  | some (status, p) =>
    let p := g_object_unref p app
    some (status, p)

/-- The top-level windows of the application `app` that still exist. -/
def Process.windows (p : Process) (app : Nat) : List Nat :=
  p.toolkit.toplevels.filter (fun w =>
    match p.toolkit.widgets[w]? with
    | some x => decide (x.application = some app)
    | none => false)

/-- Modelled from the spec: the dispatching part of the event loop (section
4.2).  The loop leaves `running` for `stopped` as soon as the application has
no top-level window left and then yields `status`; otherwise it takes the next
event and dispatches it to completion.  With a window left and no event to
come the loop waits for ever: there is no result. -/
def event_loop (status : Int) (app : Nat) : List Event → Process → Option (Int × Process)
  | [], p =>
    if p.windows app = [] then
      some (status, { p with lifecycle := p.lifecycle ++ [.stopped] })
    else none
  | e :: rest, p =>
    if p.windows app = [] then
      some (status, { p with lifecycle := p.lifecycle ++ [.stopped] })
    else event_loop status app rest { p with toolkit := dispatch p.toolkit e }

/-- Modelled from the spec: `g_application_run` (section 4.2) for a toolkit
whose loop ends with `status` and a user who produces `events`.  Loop start
takes the application from `created` to `running` and emits `activate`, whose
handlers receive the application and their user data; then events are
dispatched until no window is left.  The toolkit consumes `argc` and `argv`
itself.  An application that has been released is gone: running it has no
result. -/
def g_application_run_model (status : Int) (events : List Event) (p : Process) (app : Nat)
    (_argc : Int) (_argv : List String) : Option (Int × Process) :=
  if p.released then none
  else
    let p : Process := { p with lifecycle := p.lifecycle ++ [Phase.running] }
    let activated := (p.handlers.filter (fun h => h.signal = "activate")).foldl
      (fun acc h => invoke acc h.callback (some app) h.data) p.toolkit
    event_loop status app events { p with toolkit := activated }

/-! ## Stores that end in a known list of widgets -/

theorem getElem?_tail {α : Type} (old l : List α) (k : Nat) :
    (old ++ l)[old.length + k]? = l[k]? := by
  rw [List.getElem?_append_right (Nat.le_add_right _ _)]
  simp

theorem updateAt_tail {α : Type} (old l : List α) (k : Nat) (f : α → α) :
    updateAt (old ++ l) (old.length + k) f = old ++ updateAt l k f := by
  induction old with
  | nil => simp
  | cons x xs ih =>
    simp only [List.cons_append, List.length_cons]
    rw [show xs.length + 1 + k = (xs.length + k) + 1 by omega]
    simp [updateAt, ih]

/-- Allocation of the window in a store that ends in a known list. -/
theorem window_new_nf (old l : List Widget) (t : List Nat) (o : String) (app : Nat) :
    gtk_application_window_new ⟨old ++ l, t, o⟩ app =
      (⟨old ++ (l ++ [{ Widget.fresh .window with application := some app }]),
        t ++ [old.length + l.length], o⟩, old.length + l.length) := by
  simp [gtk_application_window_new]

theorem grid_new_nf (old l : List Widget) (t : List Nat) (o : String) :
    gtk_grid_new ⟨old ++ l, t, o⟩ =
      (⟨old ++ (l ++ [Widget.fresh .grid]), t, o⟩, old.length + l.length) := by
  simp [gtk_grid_new]

theorem button_new_nf (old l : List Widget) (t : List Nat) (o : String) (lbl : String) :
    gtk_button_new_with_label ⟨old ++ l, t, o⟩ lbl =
      (⟨old ++ (l ++ [{ Widget.fresh .button with label := lbl }]), t, o⟩,
        old.length + l.length) := by
  simp [gtk_button_new_with_label]

theorem update_nf (old l : List Widget) (t : List Nat) (o : String) (k : Nat)
    (f : Widget → Widget) :
    Toolkit.update ⟨old ++ l, t, o⟩ (old.length + k) f = ⟨old ++ updateAt l k f, t, o⟩ := by
  simp [Toolkit.update, updateAt_tail]

theorem container_add_nf (old l : List Widget) (t : List Nat) (o : String) (j k : Nat) :
    gtk_container_add ⟨old ++ l, t, o⟩ (old.length + j) (old.length + k) =
      match l[j]?, l[k]? with
      | some c, some x =>
        if c.kind ≠ .grid ∧ c.child = none ∧ x.parent = none ∧ x.kind ≠ .window ∧ j ≠ k then
          ⟨old ++ updateAt (updateAt l j (fun y => { y with child := some (old.length + k) })) k
            (fun y => { y with parent := some (old.length + j) }), t, o⟩
        else ⟨old ++ l, t, o⟩
      | _, _ => ⟨old ++ l, t, o⟩ := by
  simp only [gtk_container_add, getElem?_tail]
  cases l[j]? <;> cases l[k]? <;> simp [update_nf]

theorem container_add_nf_zero (old l : List Widget) (t : List Nat) (o : String) (k : Nat) :
    gtk_container_add ⟨old ++ l, t, o⟩ old.length (old.length + k) =
      match l[0]?, l[k]? with
      | some c, some x =>
        if c.kind ≠ .grid ∧ c.child = none ∧ x.parent = none ∧ x.kind ≠ .window ∧ 0 ≠ k then
          ⟨old ++ updateAt (updateAt l 0 (fun y => { y with child := some (old.length + k) })) k
            (fun y => { y with parent := some old.length }), t, o⟩
        else ⟨old ++ l, t, o⟩
      | _, _ => ⟨old ++ l, t, o⟩ := by
  simpa using container_add_nf old l t o 0 k

theorem grid_attach_nf (old l : List Widget) (t : List Nat) (o : String) (j k : Nat)
    (left top width height : Int) :
    gtk_grid_attach ⟨old ++ l, t, o⟩ (old.length + j) (old.length + k) left top width height =
      match l[j]?, l[k]? with
      | some g, some x =>
        if g.kind = .grid ∧ x.parent = none ∧ x.kind ≠ .window ∧ 0 < width ∧ 0 < height
            ∧ j ≠ k then
          ⟨old ++ updateAt (updateAt l j (fun y => { y with cells := y.cells ++
              [{ child := old.length + k, left := left, top := top, width := width,
                 height := height }] })) k
            (fun y => { y with parent := some (old.length + j) }), t, o⟩
        else ⟨old ++ l, t, o⟩
      | _, _ => ⟨old ++ l, t, o⟩ := by
  simp only [gtk_grid_attach, getElem?_tail]
  cases l[j]? <;> cases l[k]? <;> simp [update_nf]

theorem update_nf_zero (old l : List Widget) (t : List Nat) (o : String)
    (f : Widget → Widget) :
    Toolkit.update ⟨old ++ l, t, o⟩ old.length f = ⟨old ++ updateAt l 0 f, t, o⟩ := by
  simpa using update_nf old l t o 0 f

theorem getElem?_tail_zero {α : Type} (old l : List α) :
    (old ++ l)[old.length]? = l[0]? := by
  simpa using getElem?_tail old l 0

theorem show_all_nf (old l : List Widget) (t : List Nat) (o : String) (fuel k : Nat) :
    show_all_aux (fuel + 1) ⟨old ++ l, t, o⟩ (old.length + k) =
      match l[k]? with
      | none => ⟨old ++ l, t, o⟩
      | some x =>
        ((x.children).foldl (fun acc c => show_all_aux fuel acc c) ⟨old ++ l, t, o⟩).update
          (old.length + k) (fun y => { y with visible := true }) := by
  simp only [show_all_aux, getElem?_tail]

theorem show_all_nf_zero (old l : List Widget) (t : List Nat) (o : String) (fuel : Nat) :
    show_all_aux (fuel + 1) ⟨old ++ l, t, o⟩ old.length =
      match l[0]? with
      | none => ⟨old ++ l, t, o⟩
      | some x =>
        ((x.children).foldl (fun acc c => show_all_aux fuel acc c) ⟨old ++ l, t, o⟩).update
          old.length (fun y => { y with visible := true }) := by
  simpa using show_all_nf old l t o fuel 0

theorem show_all_built (old : List Widget) (t : List Nat) (o : String) (app fuel : Nat) :
    show_all_aux (fuel + 3) ⟨old ++ (built old.length app).map (fun y => { y with visible := false }), t, o⟩
      old.length = ⟨old ++ built old.length app, t, o⟩ := by
  simp [show_all_nf, show_all_nf_zero, built, built_window, built_grid, built_hello, built_quit, Widget.children, Widget.fresh, update_nf,
    update_nf_zero, updateAt]


theorem nf_nil (old : List Widget) (t : List Nat) (o : String) :
    (⟨old, t, o⟩ : Toolkit) = ⟨old ++ [], t, o⟩ := by simp

theorem activate_tree_eq (s : Toolkit) (app : Nat) (ud : gpointer) :
    activate_tree s app ud = (assembled s app, s.widgets.length) := by
  obtain ⟨old, t, o⟩ := s
  unfold activate_tree assembled
  rw [nf_nil old]
  simp only [window_new_nf, List.nil_append, List.length_nil, Nat.add_zero]
  simp [gtk_window_set_title, gtk_container_set_border_width, g_signal_connect,
    g_signal_connect_swapped, update_nf, update_nf_zero, grid_new_nf, button_new_nf,
    container_add_nf, container_add_nf_zero, grid_attach_nf, updateAt, Widget.fresh, built,
    built_window, built_grid, built_hello, built_quit]

theorem activate_split (s : Toolkit) (app : Nat) (ud : gpointer) :
    activate s app ud =
      gtk_widget_show_all (activate_tree s app ud).1 (activate_tree s app ud).2 := by
  simp only [activate, activate_tree]

theorem activate_pre (s : Toolkit) (app : Nat) (ud : gpointer) :
    activate s app ud = gtk_widget_show_all (assembled s app) s.widgets.length := by
  rw [activate_split, activate_tree_eq]

theorem activate_eq (s : Toolkit) (app : Nat) (ud : gpointer) :
    activate s app ud = live s app "" := by
  obtain ⟨old, t, o⟩ := s
  rw [activate_pre]
  simp only [gtk_widget_show_all, live, assembled]
  have e : (old ++ List.map (fun (y : Widget) => { y with visible := false })
      (built old.length app)).length = old.length + 2 + 3 := by simp [built, built_window, built_grid, built_hello, built_quit]
  rw [e, show_all_built]
  simp

theorem destroy_nf (old l : List Widget) (t : List Nat) (o : String) (fuel k : Nat) :
    destroy_aux (fuel + 1) ⟨old ++ l, t, o⟩ (old.length + k) =
      match l[k]? with
      | none => ⟨old ++ l, t, o⟩
      | some x =>
        let s1 := (x.children).foldl (fun acc c => destroy_aux fuel acc c) ⟨old ++ l, t, o⟩
        let s2 := match (s1.widgets[old.length + k]?).bind (fun y => y.parent) with
          | some p => s1.update p (Widget.remove (old.length + k))
          | none => s1
        let s3 := s2.update (old.length + k) Widget.dispose
        { s3 with toplevels := s3.toplevels.filter (fun t => t ≠ old.length + k) } := by
  simp only [destroy_aux, getElem?_tail]

theorem destroy_nf_zero (old l : List Widget) (t : List Nat) (o : String) (fuel : Nat) :
    destroy_aux (fuel + 1) ⟨old ++ l, t, o⟩ old.length =
      match l[0]? with
      | none => ⟨old ++ l, t, o⟩
      | some x =>
        let s1 := (x.children).foldl (fun acc c => destroy_aux fuel acc c) ⟨old ++ l, t, o⟩
        let s2 := match (s1.widgets[old.length]?).bind (fun y => y.parent) with
          | some p => s1.update p (Widget.remove old.length)
          | none => s1
        let s3 := s2.update old.length Widget.dispose
        { s3 with toplevels := s3.toplevels.filter (fun t => t ≠ old.length) } := by
  simpa using destroy_nf old l t o fuel 0

theorem destroy_built (old : List Widget) (t : List Nat) (o : String) (app fuel : Nat) :
    destroy_aux (fuel + 3) ⟨old ++ built old.length app, t, o⟩ old.length
      = ⟨old ++ (built old.length app).map Widget.dispose,
          t.filter (fun a => a < old.length ∨ old.length + 4 < a), o⟩ := by
  simp [destroy_nf, destroy_nf_zero, built, built_window, built_grid, built_hello, built_quit, Widget.children, Widget.fresh, update_nf,
    update_nf_zero, updateAt, getElem?_tail, getElem?_tail_zero, Widget.dispose, Widget.remove,
    -List.getElem?_eq_getElem, List.getElem?_cons_zero, List.getElem?_cons_succ]
  apply List.filter_congr
  intro a _
  rw [Bool.eq_iff_iff]
  simp
  omega


theorem emit_nf (old l : List Widget) (t : List Nat) (o : String) (k : Nat) (sig : String) :
    g_signal_emit ⟨old ++ l, t, o⟩ (old.length + k) sig =
      match l[k]? with
      | none => ⟨old ++ l, t, o⟩
      | some x =>
        (x.handlers.filter (fun h => h.signal = sig)).foldl
          (fun acc h => if connected acc (old.length + k) h then h.run acc (old.length + k)
            else acc) ⟨old ++ l, t, o⟩ := by
  simp only [g_signal_emit, getElem?_tail]

theorem connected_nf (old l : List Widget) (t : List Nat) (o : String) (k : Nat) (h : Handler) :
    connected ⟨old ++ l, t, o⟩ (old.length + k) h =
      match l[k]? with
      | some y => decide (h ∈ y.handlers)
      | none => false := by
  simp only [connected, getElem?_tail]

theorem emit_nf_zero (old l : List Widget) (t : List Nat) (o : String) (sig : String) :
    g_signal_emit ⟨old ++ l, t, o⟩ old.length sig =
      match l[0]? with
      | none => ⟨old ++ l, t, o⟩
      | some x =>
        (x.handlers.filter (fun h => h.signal = sig)).foldl
          (fun acc h => if connected acc old.length h then h.run acc old.length
            else acc) ⟨old ++ l, t, o⟩ := by
  simpa using emit_nf old l t o 0 sig

theorem destroy_live (s : Toolkit) (app : Nat) (text : String) :
    gtk_widget_destroy (live s app text) s.widgets.length = gone s app text := by
  obtain ⟨old, t, o⟩ := s
  have e : (old ++ built old.length app).length = old.length + 2 + 3 := by simp [built, built_window, built_grid, built_hello, built_quit]
  simp only [gtk_widget_destroy, live, gone, e, destroy_built]
  simp [List.filter_append]

theorem click_button_live (s : Toolkit) (app : Nat) (text : String) (k : Nat)
    (hk : k = 2 ∨ k = 3) :
    dispatch (live s app text) (.click (s.widgets.length + k)) =
      live s app (text ++ "Hello World\n") := by
  obtain ⟨old, t, o⟩ := s
  rcases hk with rfl | rfl <;>
    simp [dispatch, live, emit_nf, connected_nf, built, built_window, built_grid, built_hello, built_quit, Widget.fresh, Handler.run, invoke,
      print_hello, g_print, String.append_assoc]

theorem click_container_live (s : Toolkit) (app : Nat) (text : String) (k : Nat)
    (hk : k = 0 ∨ k = 1) :
    dispatch (live s app text) (.click (s.widgets.length + k)) = live s app text := by
  obtain ⟨old, t, o⟩ := s
  rcases hk with rfl | rfl <;>
    simp [dispatch, live, emit_nf, emit_nf_zero, built, built_window, built_grid, built_hello, built_quit, Widget.fresh]

theorem click_quit_live (s : Toolkit) (app : Nat) (text : String) :
    dispatch (live s app text) (.click (s.widgets.length + 4)) = gone s app text := by
  rw [← destroy_live]
  obtain ⟨old, t, o⟩ := s
  simp [dispatch, live, emit_nf, connected_nf, built, built_window, built_grid, built_hello, built_quit, Widget.fresh, Handler.run, invoke]

theorem close_live (s : Toolkit) (app : Nat) (text : String) :
    dispatch (live s app text) (.close s.widgets.length) = gone s app text := by
  rw [← destroy_live]
  simp [dispatch, live]

theorem click_gone (s : Toolkit) (app : Nat) (text : String) (k : Nat) (hk : k < 5) :
    dispatch (gone s app text) (.click (s.widgets.length + k)) = gone s app text := by
  obtain ⟨old, t, o⟩ := s
  have h : k = 0 ∨ k = 1 ∨ k = 2 ∨ k = 3 ∨ k = 4 := by omega
  rcases h with rfl | rfl | rfl | rfl | rfl <;>
    simp [dispatch, gone, emit_nf, emit_nf_zero, built, built_window, built_grid, built_hello, built_quit, Widget.fresh, Widget.dispose]

theorem close_gone (s : Toolkit) (app : Nat) (text : String) :
    dispatch (gone s app text) (.close s.widgets.length) = gone s app text := by
  simp [dispatch, gone]


theorem lookup_live (s : Toolkit) (app : Nat) (text : String) (k : Nat) :
    (live s app text).widgets[s.widgets.length + k]? = (built s.widgets.length app)[k]? := by
  simp only [live, getElem?_tail]

theorem lookup_gone (s : Toolkit) (app : Nat) (text : String) (k : Nat) :
    (gone s app text).widgets[s.widgets.length + k]? =
      ((built s.widgets.length app).map Widget.dispose)[k]? := by
  simp only [gone, getElem?_tail]

theorem destroyed_at_live (s : Toolkit) (app : Nat) (text : String) :
    destroyed_at (live s app text) s.widgets.length = false := by
  have h := lookup_live s app text 0
  simp only [Nat.add_zero] at h
  simp [destroyed_at, h, built, built_window, built_grid, built_hello, built_quit, Widget.fresh]

theorem destroyed_at_gone (s : Toolkit) (app : Nat) (text : String) :
    destroyed_at (gone s app text) s.widgets.length = true := by
  have h := lookup_gone s app text 0
  simp only [Nat.add_zero] at h
  simp [destroyed_at, h, built, built_window, built_grid, built_hello, built_quit, Widget.fresh, Widget.dispose]

/-- The stores reachable from an activation by events on its own widgets. -/
theorem dispatch_own (s : Toolkit) (app : Nat) (e : Event) (he : own_event s e)
    (text : String) :
    (dispatch (live s app text) e = live s app text ∨
      dispatch (live s app text) e = live s app (text ++ "Hello World\n") ∨
      dispatch (live s app text) e = gone s app text) ∧
    dispatch (gone s app text) e = gone s app text := by
  simp only [own_event, window_of, grid_of, button1_of, button2_of, quit_of, List.mem_cons,
    List.mem_singleton, List.not_mem_nil, or_false] at he
  rcases he with rfl | rfl | rfl | rfl | rfl | rfl
  · exact ⟨Or.inr (Or.inr (close_live s app text)), close_gone s app text⟩
  · exact ⟨Or.inl (by simpa using click_container_live s app text 0 (Or.inl rfl)),
      by simpa using click_gone s app text 0 (by omega)⟩
  · exact ⟨Or.inl (click_container_live s app text 1 (Or.inr rfl)),
      click_gone s app text 1 (by omega)⟩
  · exact ⟨Or.inr (Or.inl (click_button_live s app text 2 (Or.inl rfl))),
      click_gone s app text 2 (by omega)⟩
  · exact ⟨Or.inr (Or.inl (click_button_live s app text 3 (Or.inr rfl))),
      click_gone s app text 3 (by omega)⟩
  · exact ⟨Or.inr (Or.inr (click_quit_live s app text)), click_gone s app text 4 (by omega)⟩

theorem dispatch_all_gone (s : Toolkit) (app : Nat) (evs : List Event)
    (h : ∀ e ∈ evs, own_event s e) (text : String) :
    dispatch_all (gone s app text) evs = gone s app text := by
  induction evs with
  | nil => rfl
  | cons e rest ih =>
    have h1 := (dispatch_own s app e (h e (List.mem_cons_self _ _)) text).2
    simp only [dispatch_all, List.foldl_cons] at ih ⊢
    rw [h1]
    exact ih (fun x hx => h x (List.mem_cons_of_mem _ hx))

theorem dispatch_all_own (s : Toolkit) (app : Nat) (evs : List Event)
    (h : ∀ e ∈ evs, own_event s e) (text : String) :
    ∃ out, dispatch_all (live s app text) evs = live s app out ∨
      dispatch_all (live s app text) evs = gone s app out := by
  induction evs generalizing text with
  | nil => exact ⟨text, Or.inl rfl⟩
  | cons e rest ih =>
    have hr : ∀ x ∈ rest, own_event s x := fun x hx => h x (List.mem_cons_of_mem _ hx)
    have h1 := (dispatch_own s app e (h e (List.mem_cons_self _ _)) text).1
    have step : dispatch_all (live s app text) (e :: rest) =
        dispatch_all (dispatch (live s app text) e) rest := rfl
    rw [step]
    rcases h1 with h1 | h1 | h1 <;> rw [h1]
    · exact ih hr text
    · exact ih hr _
    · exact ⟨text, Or.inr (dispatch_all_gone s app rest hr text)⟩

theorem dispatch_all_hello (s : Toolkit) (app : Nat) (evs : List Event)
    (h : ∀ e ∈ evs, hello_click s e) (text : String) :
    ∃ out, dispatch_all (live s app text) evs = live s app out := by
  induction evs generalizing text with
  | nil => exact ⟨text, rfl⟩
  | cons e rest ih =>
    have hr : ∀ x ∈ rest, hello_click s x := fun x hx => h x (List.mem_cons_of_mem _ hx)
    have step : dispatch_all (live s app text) (e :: rest) =
        dispatch_all (dispatch (live s app text) e) rest := rfl
    rw [step]
    rcases h e (List.mem_cons_self _ _) with rfl | rfl
    · rw [show button1_of s = s.widgets.length + 2 from rfl,
        click_button_live s app text 2 (Or.inl rfl)]
      exact ih hr _
    · rw [show button2_of s = s.widgets.length + 3 from rfl,
        click_button_live s app text 3 (Or.inr rfl)]
      exact ih hr _


theorem quit_after_second_activation (s : Toolkit) (app : Nat) :
    destroyed_at (dispatch (live (live s app "") app "") (.click (s.widgets.length + 4)))
        s.widgets.length = true ∧
    destroyed_at (dispatch (live (live s app "") app "") (.click (s.widgets.length + 4)))
        (s.widgets.length + 5) = false := by
  obtain ⟨old, t, o⟩ := s
  simp only [live, List.append_assoc, dispatch, emit_nf]
  simp [built, built_window, built_grid, built_hello, built_quit, Widget.fresh, connected_nf, Handler.run, invoke, gtk_widget_destroy,
    destroy_nf, destroy_nf_zero, Widget.children, update_nf,
    update_nf_zero, updateAt, getElem?_tail, getElem?_tail_zero, Widget.dispose, Widget.remove,
    -List.getElem?_eq_getElem, List.getElem?_cons_zero, List.getElem?_cons_succ, destroyed_at]


theorem disjoint_of_covered (c d : GridChild) (l1 l2 : List (Int × Int))
    (hc : c.covered = l1) (hd : d.covered = l2) (h : ∀ cell ∈ l1, cell ∉ l2) :
    GridChild.disjoint c d := by
  intro cell h1
  rw [hd]
  exact h cell (hc ▸ h1)

/-! ## The widget tree built by `activate` -/

/-- C1: the grid built by `activate` has exactly three children, the button
labelled "Button 1" at column 0, row 0 spanning 1x1, the button labelled
"Button 2" at column 1, row 0 spanning 1x1 and the button labelled "Quit" at
column 0, row 1 spanning 2 columns and 1 row; the cells they cover are
`(0,0)`, `(1,0)` and `(0,1), (1,1)`, and no two children share a cell. -/
theorem activate_grid_three_children (s : Toolkit) (app : Nat) (ud : gpointer) :
    ∃ g b1 b2 q : Widget,
      (activate s app ud).widgets[grid_of s]? = some g ∧
      (activate s app ud).widgets[button1_of s]? = some b1 ∧
      (activate s app ud).widgets[button2_of s]? = some b2 ∧
      (activate s app ud).widgets[quit_of s]? = some q ∧
      s.widgets[grid_of s]? = none ∧
      g.kind = .grid ∧
      g.children = [button1_of s, button2_of s, quit_of s] ∧
      g.cells = [⟨button1_of s, 0, 0, 1, 1⟩, ⟨button2_of s, 1, 0, 1, 1⟩,
                 ⟨quit_of s, 0, 1, 2, 1⟩] ∧
      b1.kind = .button ∧ b1.label = "Button 1" ∧ b1.parent = some (grid_of s) ∧
      b2.kind = .button ∧ b2.label = "Button 2" ∧ b2.parent = some (grid_of s) ∧
      q.kind = .button ∧ q.label = "Quit" ∧ q.parent = some (grid_of s) ∧
      g.cells.map GridChild.covered = [[(0, 0)], [(1, 0)], [(0, 1), (1, 1)]] ∧
      ∀ c ∈ g.cells, ∀ d ∈ g.cells, c ≠ d → GridChild.disjoint c d := by
  rw [activate_eq]
  refine ⟨built_grid s.widgets.length, built_hello s.widgets.length "Button 1",
    built_hello s.widgets.length "Button 2", built_quit s.widgets.length, ?_, ?_, ?_, ?_, ?_⟩
  · rw [grid_of, lookup_live]; rfl
  · rw [button1_of, lookup_live]; rfl
  · rw [button2_of, lookup_live]; rfl
  · rw [quit_of, lookup_live]; rfl
  · refine ⟨?_, rfl, rfl, rfl, rfl, rfl, rfl, rfl, rfl, rfl, rfl, rfl, rfl, ?_, ?_⟩
    · simp [grid_of]
    · rfl
    · intro c hc d hd hne
      simp only [built_grid, Widget.fresh, List.mem_cons, List.mem_singleton,
        List.not_mem_nil, or_false] at hc hd
      rcases hc with rfl | rfl | rfl <;> rcases hd with rfl | rfl | rfl
      · exact absurd rfl hne
      · exact disjoint_of_covered _ _ [(0, 0)] [(1, 0)] rfl rfl (by decide)
      · exact disjoint_of_covered _ _ [(0, 0)] [(0, 1), (1, 1)] rfl rfl (by decide)
      · exact disjoint_of_covered _ _ [(1, 0)] [(0, 0)] rfl rfl (by decide)
      · exact absurd rfl hne
      · exact disjoint_of_covered _ _ [(1, 0)] [(0, 1), (1, 1)] rfl rfl (by decide)
      · exact disjoint_of_covered _ _ [(0, 1), (1, 1)] [(0, 0)] rfl rfl (by decide)
      · exact disjoint_of_covered _ _ [(0, 1), (1, 1)] [(1, 0)] rfl rfl (by decide)
      · exact absurd rfl hne


theorem lookup_live_old (s : Toolkit) (app : Nat) (text : String) (j : Nat)
    (hj : j < s.widgets.length) :
    (live s app text).widgets[j]? = s.widgets[j]? := by
  simp only [live]
  exact List.getElem?_append_left hj

theorem built_cases (n app k : Nat) (x : Widget) (h : (built n app)[k]? = some x) :
    (k = 0 ∧ x = built_window n app) ∨ (k = 1 ∧ x = built_grid n) ∨
    (k = 2 ∧ x = built_hello n "Button 1") ∨ (k = 3 ∧ x = built_hello n "Button 2") ∨
    (k = 4 ∧ x = built_quit n) := by
  have hk : k = 0 ∨ k = 1 ∨ k = 2 ∨ k = 3 ∨ k = 4 ∨ 5 ≤ k := by omega
  rcases hk with rfl | rfl | rfl | rfl | rfl | hk
  · left; exact ⟨rfl, (Option.some.inj h).symm⟩
  · right; left; exact ⟨rfl, (Option.some.inj h).symm⟩
  · right; right; left; exact ⟨rfl, (Option.some.inj h).symm⟩
  · right; right; right; left; exact ⟨rfl, (Option.some.inj h).symm⟩
  · right; right; right; right; exact ⟨rfl, (Option.some.inj h).symm⟩
  · have : (built n app)[k]? = none := by
      apply List.getElem?_eq_none
      simp [built]
      omega
    rw [this] at h
    cases h

/-- C2: one run of `activate` allocates five widgets after the existing ones,
which it leaves as they were; exactly one of the five is a window, and it is
the one new top-level window.  That window has title "Window" and border
width 10, the grid is its only child, the window is the parent of the grid,
and (in a store whose containers refer to allocated widgets only) no other
widget holds the grid as a child. -/
theorem activate_creates_one_window (s : Toolkit) (app : Nat) (ud : gpointer)
    (hs : closed s) :
    (activate s app ud).widgets.length = s.widgets.length + 5 ∧
    (activate s app ud).widgets.take s.widgets.length = s.widgets ∧
    (activate s app ud).toplevels = s.toplevels ++ [window_of s] ∧
    (∀ j x, s.widgets.length ≤ j → (activate s app ud).widgets[j]? = some x →
      x.kind = .window → j = window_of s) ∧
    ∃ w g : Widget,
      (activate s app ud).widgets[window_of s]? = some w ∧
      (activate s app ud).widgets[grid_of s]? = some g ∧
      w.kind = .window ∧ w.application = some app ∧
      w.title = "Window" ∧ w.border_width = 10 ∧
      w.children = [grid_of s] ∧
      g.kind = .grid ∧ g.parent = some (window_of s) ∧
      ∀ j x, (activate s app ud).widgets[j]? = some x → grid_of s ∈ x.children →
        j = window_of s := by
  rw [activate_eq]
  refine ⟨by simp [live, built], by simp [live], rfl, ?_,
    built_window s.widgets.length app, built_grid s.widgets.length, ?_, ?_,
    rfl, rfl, rfl, rfl, rfl, rfl, rfl, ?_⟩
  · intro j x hj hx hk
    obtain ⟨k, rfl⟩ := Nat.exists_eq_add_of_le hj
    rw [lookup_live] at hx
    rcases built_cases _ _ _ _ hx with ⟨rfl, _⟩ | ⟨_, rfl⟩ | ⟨_, rfl⟩ | ⟨_, rfl⟩ | ⟨_, rfl⟩
    · rfl
    all_goals cases hk
  · have h := lookup_live s app "" 0
    simpa [window_of] using h
  · rw [grid_of, lookup_live]; rfl
  · intro j x hx hc
    rcases Nat.lt_or_ge j s.widgets.length with hj | hj
    · rw [lookup_live_old s app "" j hj] at hx
      have hm : x ∈ s.widgets := List.getElem?_mem hx
      have := hs x hm _ hc
      simp only [grid_of] at this
      omega
    · obtain ⟨k, rfl⟩ := Nat.exists_eq_add_of_le hj
      rw [lookup_live] at hx
      rcases built_cases _ _ _ _ hx with ⟨rfl, _⟩ | ⟨_, rfl⟩ | ⟨_, rfl⟩ | ⟨_, rfl⟩ | ⟨_, rfl⟩
      · rfl
      all_goals
        simp [built_grid, built_hello, built_quit, Widget.fresh, Widget.children, grid_of] at hc

/-- A store with closed containers: the one left by a first activation, on
which a second activation allocates five more widgets and one more top-level
window. -/
theorem activate_creates_one_window_witness :
    closed (activate Toolkit.init 0 none) ∧
    (activate (activate Toolkit.init 0 none) 0 none).widgets.length = 10 ∧
    (activate (activate Toolkit.init 0 none) 0 none).toplevels = [0, 5] := by
  have hc : closed (activate Toolkit.init 0 none) := by
    rw [activate_eq]
    intro x hx c hc
    simp [live, built, built_window, built_grid, built_hello, built_quit, Widget.fresh,
      Toolkit.init] at hx
    rcases hx with rfl | rfl | rfl | rfl | rfl <;>
      simp [Widget.children, live, built, Toolkit.init] at hc ⊢ <;> omega
  have h := activate_creates_one_window (activate Toolkit.init 0 none) 0 none hc
  refine ⟨hc, ?_, ?_⟩
  · rw [h.1, activate_eq]; rfl
  · rw [h.2.2.1, activate_eq]; rfl


theorem lookup_assembled (s : Toolkit) (app : Nat) (k : Nat) :
    (assembled s app).widgets[s.widgets.length + k]? =
      ((built s.widgets.length app).map (fun y => { y with visible := false }))[k]? := by
  simp only [assembled, getElem?_tail]

/-- C10: the last call of `activate` is the recursive show of the window,
applied to the store built by the calls before it, in which the grid is
already the child of the window and the three buttons are already the
children of the grid, and in which none of the five is visible yet; after
`activate` the window, the grid and the three buttons are all visible, none is
destroyed, and the grid and the buttons hang under the window. -/
theorem activate_shows_all_widgets (s : Toolkit) (app : Nat) (ud : gpointer) :
    activate s app ud =
      gtk_widget_show_all (activate_tree s app ud).1 (activate_tree s app ud).2 ∧
    (activate_tree s app ud).2 = window_of s ∧
    (∃ w g : Widget,
      (activate_tree s app ud).1.widgets[window_of s]? = some w ∧
      (activate_tree s app ud).1.widgets[grid_of s]? = some g ∧
      w.children = [grid_of s] ∧
      g.children = [button1_of s, button2_of s, quit_of s]) ∧
    (∀ k, k < 5 → visible_at (activate_tree s app ud).1 (s.widgets.length + k) = false) ∧
    (∀ k, k < 5 → visible_at (activate s app ud) (s.widgets.length + k) = true ∧
      destroyed_at (activate s app ud) (s.widgets.length + k) = false) ∧
    (∃ w g : Widget,
      (activate s app ud).widgets[window_of s]? = some w ∧
      (activate s app ud).widgets[grid_of s]? = some g ∧
      w.children = [grid_of s] ∧
      g.children = [button1_of s, button2_of s, quit_of s]) := by
  refine ⟨activate_split s app ud, ?_, ?_, ?_, ?_, ?_⟩
  · rw [activate_tree_eq]; rfl
  · rw [activate_tree_eq]
    refine ⟨{ built_window s.widgets.length app with visible := false },
      { built_grid s.widgets.length with visible := false }, ?_, ?_, rfl, rfl⟩
    · have h := lookup_assembled s app 0
      simpa [window_of, built] using h
    · rw [grid_of, lookup_assembled]; rfl
  · intro k hk
    have h : k = 0 ∨ k = 1 ∨ k = 2 ∨ k = 3 ∨ k = 4 := by omega
    rw [activate_tree_eq]
    simp only [visible_at, lookup_assembled]
    rcases h with rfl | rfl | rfl | rfl | rfl <;> rfl
  · intro k hk
    have h : k = 0 ∨ k = 1 ∨ k = 2 ∨ k = 3 ∨ k = 4 := by omega
    rw [activate_eq]
    simp only [visible_at, destroyed_at, lookup_live]
    rcases h with rfl | rfl | rfl | rfl | rfl <;> exact ⟨rfl, rfl⟩
  · rw [activate_eq]
    refine ⟨built_window s.widgets.length app, built_grid s.widgets.length, ?_, ?_, rfl, rfl⟩
    · have h := lookup_live s app "" 0
      simpa [window_of, built] using h
    · rw [grid_of, lookup_live]; rfl

/-! ## The callbacks -/

/-- C4, as stated, fails: the text `print_hello` appends to the output is not
the bare text "Hello World". -/
theorem print_hello_not_bare_text :
    (print_hello Toolkit.init none none).output ≠ Toolkit.init.output ++ "Hello World" := by
  decide

/-- C4, amended: for every store and every widget and data argument,
`print_hello` appends exactly "Hello World" followed by a line feed to the
output and leaves the widgets and the top-level list as they were; clicking
the first button created by `activate` runs exactly this callback. -/
theorem print_hello_prints_line (s : Toolkit) (widget data : gpointer) :
    (print_hello s widget data).output = s.output ++ "Hello World\n" ∧
    (print_hello s widget data).widgets = s.widgets ∧
    (print_hello s widget data).toplevels = s.toplevels ∧
    ∀ (app : Nat) (ud : gpointer),
      dispatch (activate s app ud) (.click (button1_of s)) =
        print_hello (activate s app ud) (some (button1_of s)) none := by
  refine ⟨rfl, rfl, rfl, ?_⟩
  intro app ud
  rw [activate_eq, show button1_of s = s.widgets.length + 2 from rfl,
    click_button_live s app "" 2 (Or.inl rfl)]
  simp [print_hello, g_print, live, String.append_assoc]


/-- C5: `activate` connects the second button exactly as the first (the same
callback `print_hello` with the same user data `NULL` on the same signal), and
in every store reached from the activation by events on the widgets it
created, a click on the second button leaves the same store, output included,
as a click on the first. -/
theorem button2_same_as_button1 (s : Toolkit) (app : Nat) (ud : gpointer)
    (evs : List Event) (h : ∀ e ∈ evs, own_event s e) :
    (∃ b1 b2 : Widget,
      (activate s app ud).widgets[button1_of s]? = some b1 ∧
      (activate s app ud).widgets[button2_of s]? = some b2 ∧
      b1.handlers = [⟨"clicked", .print_hello, none, false⟩] ∧
      b2.handlers = b1.handlers) ∧
    dispatch (dispatch_all (activate s app ud) evs) (.click (button2_of s)) =
      dispatch (dispatch_all (activate s app ud) evs) (.click (button1_of s)) := by
  rw [activate_eq]
  refine ⟨⟨built_hello s.widgets.length "Button 1", built_hello s.widgets.length "Button 2",
    ?_, ?_, rfl, rfl⟩, ?_⟩
  · rw [button1_of, lookup_live]; rfl
  · rw [button2_of, lookup_live]; rfl
  · obtain ⟨out, ho | ho⟩ := dispatch_all_own s app evs h ""
    · rw [ho, button1_of, button2_of, click_button_live s app out 2 (Or.inl rfl),
        click_button_live s app out 3 (Or.inr rfl)]
    · rw [ho, button1_of, button2_of, click_gone s app out 2 (by omega),
        click_gone s app out 3 (by omega)]

/-- After a click on the first and a click on the second button the window is
still there; a click on the second button then prints the same third line as
a click on the first. -/
theorem button2_same_as_button1_witness :
    (∀ e ∈ [Event.click 2, Event.click 3], own_event Toolkit.init e) ∧
    dispatch (dispatch_all (activate Toolkit.init 0 none) [Event.click 2, Event.click 3])
        (.click (button2_of Toolkit.init)) =
      dispatch (dispatch_all (activate Toolkit.init 0 none) [Event.click 2, Event.click 3])
        (.click (button1_of Toolkit.init)) ∧
    (dispatch (dispatch_all (activate Toolkit.init 0 none) [Event.click 2, Event.click 3])
        (.click (button2_of Toolkit.init))).output =
      "Hello World\nHello World\nHello World\n" ∧
    destroyed_at (dispatch (dispatch_all (activate Toolkit.init 0 none)
        [Event.click 2, Event.click 3]) (.click (button2_of Toolkit.init)))
      (window_of Toolkit.init) = false :=
  have h : ∀ e ∈ [Event.click 2, Event.click 3], own_event Toolkit.init e := by decide
  ⟨h, (button2_same_as_button1 Toolkit.init 0 none _ h).2, by decide, by decide⟩

/-- C3: `activate` connects the third button, swapped, to `gtk_widget_destroy`
with the address of the window it created at its start as user data (an
address that was not allocated before).  In every store reached from the
activation by events on the widgets it created, a click on that button leaves
that window destroyed.  After a second activation a click on the third
button of the first activation still destroys the first window and not the second. -/
theorem quit_click_destroys_window (s : Toolkit) (app : Nat) (ud : gpointer)
    (evs : List Event) (h : ∀ e ∈ evs, own_event s e) :
    s.widgets[window_of s]? = none ∧
    (∃ w q : Widget,
      (activate s app ud).widgets[window_of s]? = some w ∧
      (activate s app ud).widgets[quit_of s]? = some q ∧
      w.kind = .window ∧ q.label = "Quit" ∧
      q.handlers = [⟨"clicked", .gtk_widget_destroy, some (window_of s), true⟩]) ∧
    destroyed_at (dispatch (dispatch_all (activate s app ud) evs) (.click (quit_of s)))
      (window_of s) = true ∧
    destroyed_at (dispatch (activate (activate s app ud) app ud) (.click (quit_of s)))
      (window_of s) = true ∧
    destroyed_at (dispatch (activate (activate s app ud) app ud) (.click (quit_of s)))
      (window_of (activate s app ud)) = false := by
  refine ⟨by simp [window_of], ?_, ?_, ?_⟩
  · rw [activate_eq]
    refine ⟨built_window s.widgets.length app, built_quit s.widgets.length, ?_, ?_,
      rfl, rfl, rfl⟩
    · have h := lookup_live s app "" 0
      simpa [window_of, built] using h
    · rw [quit_of, lookup_live]; rfl
  · rw [activate_eq]
    obtain ⟨out, ho | ho⟩ := dispatch_all_own s app evs h ""
    · rw [ho, quit_of, click_quit_live]
      exact destroyed_at_gone s app out
    · rw [ho, quit_of, click_gone s app out 4 (by omega)]
      exact destroyed_at_gone s app out
  · rw [activate_eq, activate_eq]
    have e : window_of (live s app "") = s.widgets.length + 5 := by
      simp [window_of, live, built]
    rw [e]
    exact quit_after_second_activation s app

/-- After a click on each of the first two buttons of the first activation of
a process, a click on the third button destroys the window. -/
theorem quit_click_destroys_window_witness :
    (∀ e ∈ [Event.click 2, Event.click 3], own_event Toolkit.init e) ∧
    destroyed_at (dispatch (dispatch_all (activate Toolkit.init 0 none)
      [Event.click 2, Event.click 3]) (.click (quit_of Toolkit.init)))
        (window_of Toolkit.init) = true :=
  have h : ∀ e ∈ [Event.click 2, Event.click 3], own_event Toolkit.init e := by decide
  ⟨h, (quit_click_destroys_window Toolkit.init 0 none _ h).2.2.1⟩

/-- C7: of the five widgets created by `activate` only the third button has a
handler that calls `gtk_widget_destroy`; after any sequence of clicks on the
first and second button the window is not destroyed; and whenever an event on
one of the five widgets takes a reachable store in which the window is not
destroyed to one in which it is, that event is a click on the third button or
the closing of the window itself. -/
theorem only_quit_destroys_window (s : Toolkit) (app : Nat) (ud : gpointer) :
    (∀ k x, (activate s app ud).widgets[s.widgets.length + k]? = some x →
      ∀ hd ∈ x.handlers, hd.callback = .gtk_widget_destroy →
        s.widgets.length + k = quit_of s) ∧
    (∀ evs : List Event, (∀ e ∈ evs, hello_click s e) →
      destroyed_at (dispatch_all (activate s app ud) evs) (window_of s) = false) ∧
    (∀ (evs : List Event) (e : Event), (∀ x ∈ evs, own_event s x) → own_event s e →
      destroyed_at (dispatch_all (activate s app ud) evs) (window_of s) = false →
      destroyed_at (dispatch (dispatch_all (activate s app ud) evs) e) (window_of s) = true →
      e = .click (quit_of s) ∨ e = .close (window_of s)) := by
  rw [activate_eq]
  refine ⟨?_, ?_, ?_⟩
  · intro k x hx hd hm hcb
    rw [lookup_live] at hx
    rcases built_cases _ _ _ _ hx with ⟨_, rfl⟩ | ⟨_, rfl⟩ | ⟨_, rfl⟩ | ⟨_, rfl⟩ | ⟨rfl, _⟩
    · simp [built_window, Widget.fresh] at hm
    · simp [built_grid, Widget.fresh] at hm
    · simp [built_hello, Widget.fresh] at hm
      subst hm; cases hcb
    · simp [built_hello, Widget.fresh] at hm
      subst hm; cases hcb
    · rfl
  · intro evs h
    obtain ⟨out, ho⟩ := dispatch_all_hello s app evs h ""
    rw [ho]
    exact destroyed_at_live s app out
  · intro evs e h he hbefore hafter
    obtain ⟨out, ho | ho⟩ := dispatch_all_own s app evs h ""
    · rw [ho] at hafter
      have hcases := he
      simp only [own_event, List.mem_cons, List.mem_singleton, List.not_mem_nil,
        or_false] at hcases
      rcases hcases with rfl | rfl | rfl | rfl | rfl | rfl
      · exact Or.inr rfl
      · have := click_container_live s app out 0 (Or.inl rfl)
        simp only [Nat.add_zero] at this
        rw [window_of, this, destroyed_at_live] at hafter
        cases hafter
      · rw [grid_of, click_container_live s app out 1 (Or.inr rfl), window_of,
          destroyed_at_live] at hafter
        cases hafter
      · rw [button1_of, click_button_live s app out 2 (Or.inl rfl), window_of,
          destroyed_at_live] at hafter
        cases hafter
      · rw [button2_of, click_button_live s app out 3 (Or.inr rfl), window_of,
          destroyed_at_live] at hafter
        cases hafter
      · exact Or.inl rfl
    · rw [ho, window_of, destroyed_at_gone] at hbefore
      cases hbefore

/-- A click on the first button followed by the closing of the window: the
event that destroys the window is the closing. -/
theorem only_quit_destroys_window_witness :
    Event.close 0 = .click (quit_of Toolkit.init) ∨
      Event.close 0 = .close (window_of Toolkit.init) :=
  (only_quit_destroys_window Toolkit.init 0 none).2.2 [Event.click 2] (Event.close 0)
    (by decide) (by decide) (by decide) (by decide)


/-! ## Destruction in an arbitrary store -/

theorem updateAt_length {α : Type} (l : List α) (i : Nat) (f : α → α) :
    (updateAt l i f).length = l.length := by
  induction l generalizing i with
  | nil => rfl
  | cons x xs ih =>
    cases i with
    | zero => rfl
    | succ i => simp [updateAt, ih]

theorem updateAt_getElem? {α : Type} (l : List α) (i : Nat) (f : α → α) :
    (updateAt l i f)[i]? = (l[i]?).map f := by
  induction l generalizing i with
  | nil => rfl
  | cons x xs ih =>
    cases i with
    | zero => simp [updateAt]
    | succ i => simp [updateAt, ih]

theorem updateAt_fixed {α : Type} (l : List α) (i : Nat) (f : α → α)
    (h : ∀ x, l[i]? = some x → f x = x) : updateAt l i f = l := by
  induction l generalizing i with
  | nil => rfl
  | cons x xs ih =>
    cases i with
    | zero => simp [updateAt, h x (by simp)]
    | succ i =>
      simp only [updateAt]
      rw [ih i (fun y hy => h y (by simpa using hy))]

theorem update_length (s : Toolkit) (w : Nat) (f : Widget → Widget) :
    (s.update w f).widgets.length = s.widgets.length := by
  simp [Toolkit.update, updateAt_length]

theorem foldl_length (g : Toolkit → Nat → Toolkit) (cs : List Nat) (s : Toolkit)
    (h : ∀ t c, (g t c).widgets.length = t.widgets.length) :
    (cs.foldl g s).widgets.length = s.widgets.length := by
  induction cs generalizing s with
  | nil => rfl
  | cons c rest ih => rw [List.foldl_cons, ih, h]

theorem destroy_aux_length (fuel : Nat) (s : Toolkit) (w : Nat) :
    (destroy_aux fuel s w).widgets.length = s.widgets.length := by
  induction fuel generalizing s w with
  | zero => rfl
  | succ fuel ih =>
    simp only [destroy_aux]
    cases hx : s.widgets[w]? with
    | none => rfl
    | some x =>
      simp only
      have hf := foldl_length (fun acc c => destroy_aux fuel acc c) x.children s
        (fun t c => ih t c)
      rw [update_length]
      split
      · rw [update_length, hf]
      · exact hf

/-- What one destruction leaves at the address it was applied to. -/
theorem destroy_aux_shape (fuel : Nat) (s : Toolkit) (w : Nat) (x : Widget)
    (hx : s.widgets[w]? = some x) :
    (∃ y, (destroy_aux (fuel + 1) s w).widgets[w]? = some (Widget.dispose y)) ∧
    ∃ l : List Nat, (destroy_aux (fuel + 1) s w).toplevels = l.filter (fun t => t ≠ w) := by
  have hw : w < s.widgets.length := by
    rcases List.getElem?_eq_some.mp hx with ⟨h, _⟩
    exact h
  simp only [destroy_aux, hx]
  have hf := foldl_length (fun acc c => destroy_aux fuel acc c) x.children s
    (fun t c => destroy_aux_length fuel t c)
  constructor
  · simp only [Toolkit.update, updateAt_getElem?]
    split
    · rename_i p hp
      have hl : w < (updateAt (List.foldl (fun acc c => destroy_aux fuel acc c) s
          x.children).widgets p (Widget.remove w)).length := by
        rw [updateAt_length, hf]; exact hw
      rw [List.getElem?_eq_getElem hl]
      exact ⟨_, rfl⟩
    · have hl : w < (List.foldl (fun acc c => destroy_aux fuel acc c) s
          x.children).widgets.length := by
        rw [hf]; exact hw
      rw [List.getElem?_eq_getElem hl]
      exact ⟨_, rfl⟩
  · exact ⟨_, rfl⟩

/-- Destroying again a widget that has already been through destruction
changes nothing, whatever the recursion budget. -/
theorem destroy_aux_again (fuel : Nat) (r : Toolkit) (w : Nat) (y : Widget) (l : List Nat)
    (hy : r.widgets[w]? = some (Widget.dispose y))
    (hl : r.toplevels = l.filter (fun t => t ≠ w)) :
    destroy_aux fuel r w = r := by
  cases fuel with
  | zero => rfl
  | succ fuel =>
    simp only [destroy_aux, hy]
    have hc : (Widget.dispose y).children = [] := rfl
    have hp : (Widget.dispose y).parent = none := rfl
    simp only [hc, List.foldl_nil, hy, Option.bind, hp]
    have hu : r.update w Widget.dispose = r := by
      simp only [Toolkit.update]
      rw [updateAt_fixed]
      intro x hx
      rw [hy] at hx
      cases hx
      rfl
    rw [hu]
    have ht : r.toplevels.filter (fun t => t ≠ w) = r.toplevels := by
      rw [hl, List.filter_filter]
      simp
    rw [ht]

/-- C8: in every store, for every address, destroying a widget a second time
yields the store the first destruction left (the call is total, so it cannot
fail); in particular a second click on the third button of an activation
leaves the store the first click left. -/
theorem destroy_idempotent (s : Toolkit) (w : Nat) :
    gtk_widget_destroy (gtk_widget_destroy s w) w = gtk_widget_destroy s w ∧
    ∀ (app : Nat) (ud : gpointer),
      dispatch (dispatch (activate s app ud) (.click (quit_of s))) (.click (quit_of s)) =
        dispatch (activate s app ud) (.click (quit_of s)) := by
  constructor
  · cases hx : s.widgets[w]? with
    | none =>
      have h1 : ∀ fuel, destroy_aux fuel s w = s := by
        intro fuel
        cases fuel with
        | zero => rfl
        | succ fuel => simp only [destroy_aux, hx]
      simp only [gtk_widget_destroy, h1]
    | some x =>
      have hw : w < s.widgets.length := by
        rcases List.getElem?_eq_some.mp hx with ⟨h, _⟩
        exact h
      obtain ⟨k, hk⟩ : ∃ k, s.widgets.length = k + 1 := ⟨s.widgets.length - 1, by omega⟩
      obtain ⟨⟨y, hy⟩, ⟨l, hl⟩⟩ := destroy_aux_shape k s w x hx
      simp only [gtk_widget_destroy, hk]
      exact destroy_aux_again _ _ w y l hy hl
  · intro app ud
    rw [activate_eq, quit_of, click_quit_live, click_gone s app "" 4 (by omega)]


/-! ## `main` and the event loop -/

/-- C6: for every `g_application_run`, every `argc` and every `argv`, `main`
calls the loop once, on the application it created (identifier
"org.gtk.example", no flags, `activate` connected to the signal `activate`,
not released) and on exactly the `argc` and `argv` it received.  When the
loop does not exit neither does `main`; when it exits with a status, `main`
returns that status after releasing the application in the process the loop
left. -/
theorem main_returns_loop_status (run : Runner) (argc : Int) (argv : List String) :
    let started : Process :=
      { application_id := "org.gtk.example", flags := G_APPLICATION_FLAGS_NONE,
        handlers := [⟨"activate", .activate, none, false⟩], lifecycle := [.created],
        released := false, toolkit := Toolkit.init }
    (∀ status p, run started 0 argc argv = some (status, p) →
      main run argc argv = some (status, g_object_unref p 0)) ∧
    (run started 0 argc argv = none → main run argc argv = none) ∧
    (∀ status q, main run argc argv = some (status, q) →
      q.released = true ∧
      ∃ p, run started 0 argc argv = some (status, p) ∧ q = g_object_unref p 0) := by
  intro started
  have hm : main run argc argv =
      match run started 0 argc argv with
      | none => none
      | some (status, p) => some (status, g_object_unref p 0) := rfl
  refine ⟨?_, ?_, ?_⟩
  · intro status p h
    rw [hm, h]
  · intro h
    rw [hm, h]
  · intro status q h
    rw [hm] at h
    cases hr : run started 0 argc argv with
    | none => rw [hr] at h; cases h
    | some r =>
      obtain ⟨st, p⟩ := r
      rw [hr] at h
      simp only [Option.some.injEq, Prod.mk.injEq] at h
      obtain ⟨rfl, rfl⟩ := h
      exact ⟨rfl, p, rfl, rfl⟩

/-- A run of `main` with a loop whose status depends on `argc` and which only
exits on the `argv` it expects. -/
theorem main_returns_loop_status_witness :
    main (fun p _ argc argv => if argv = ["example-2"] then some (argc + 41, p) else none)
      1 ["example-2"] =
    some (42, g_object_unref
      { application_id := "org.gtk.example", flags := G_APPLICATION_FLAGS_NONE,
        handlers := [⟨"activate", .activate, none, false⟩], lifecycle := [.created],
        released := false, toolkit := Toolkit.init } 0) :=
  (main_returns_loop_status
    (fun p _ argc argv => if argv = ["example-2"] then some (argc + 41, p) else none)
    1 ["example-2"]).1 42 _ (by decide)

theorem windows_live (a : String) (f : Nat) (hs : List Handler) (l : List Phase) (r : Bool)
    (text : String) :
    Process.windows ⟨a, f, hs, l, r, live Toolkit.init 0 text⟩ 0 = [0] := by
  simp [Process.windows, live, Toolkit.init, built, built_window, Widget.fresh]

theorem windows_gone (a : String) (f : Nat) (hs : List Handler) (l : List Phase) (r : Bool)
    (text : String) :
    Process.windows ⟨a, f, hs, l, r, gone Toolkit.init 0 text⟩ 0 = [] := by
  simp [Process.windows, gone, Toolkit.init]

/-- Whenever the loop yields a result, it is the status of the toolkit, reached by
entering `stopped` with no window left. -/
theorem event_loop_result (status : Int) (app : Nat) (evs : List Event) (p : Process)
    (r : Int × Process) (h : event_loop status app evs p = some r) :
    r.1 = status ∧ r.2.lifecycle = p.lifecycle ++ [.stopped] ∧ r.2.windows app = [] ∧
      r.2.released = p.released := by
  induction evs generalizing p with
  | nil =>
    simp only [event_loop] at h
    split at h
    · rename_i hw
      cases h
      exact ⟨rfl, rfl, hw, rfl⟩
    · cases h
  | cons e rest ih =>
    simp only [event_loop] at h
    split at h
    · rename_i hw
      cases h
      exact ⟨rfl, rfl, hw, rfl⟩
    · exact ih { p with toolkit := dispatch p.toolkit e } h

theorem event_loop_gone (status : Int) (evs : List Event) (a : String) (f : Nat)
    (hs : List Handler) (l : List Phase) (r : Bool) (text : String) :
    event_loop status 0 evs ⟨a, f, hs, l, r, gone Toolkit.init 0 text⟩ =
      some (status, ⟨a, f, hs, l ++ [.stopped], r, gone Toolkit.init 0 text⟩) := by
  cases evs <;> simp [event_loop, windows_gone]

theorem hello_click_live (e : Event) (text : String) (h : hello_click Toolkit.init e) :
    dispatch (live Toolkit.init 0 text) e = live Toolkit.init 0 (text ++ "Hello World\n") := by
  rcases h with rfl | rfl
  · exact click_button_live Toolkit.init 0 text 2 (Or.inl rfl)
  · exact click_button_live Toolkit.init 0 text 3 (Or.inr rfl)

theorem event_loop_hello (status : Int) (pre evs : List Event) (a : String) (f : Nat)
    (hs : List Handler) (l : List Phase) (r : Bool) (text out : String)
    (h : ∀ e ∈ pre, hello_click Toolkit.init e)
    (hd : dispatch_all (live Toolkit.init 0 text) pre = live Toolkit.init 0 out) :
    event_loop status 0 (pre ++ evs) ⟨a, f, hs, l, r, live Toolkit.init 0 text⟩ =
      event_loop status 0 evs ⟨a, f, hs, l, r, live Toolkit.init 0 out⟩ := by
  induction pre generalizing text with
  | nil =>
    have ht : live Toolkit.init 0 text = live Toolkit.init 0 out := hd
    rw [ht]; rfl
  | cons e rest ih =>
    have hr : ∀ x ∈ rest, hello_click Toolkit.init x :=
      fun x hx => h x (List.mem_cons_of_mem _ hx)
    have he := hello_click_live e text (h e (List.mem_cons_self _ _))
    have hd2 : dispatch_all (live Toolkit.init 0 (text ++ "Hello World\n")) rest =
        live Toolkit.init 0 out := by
      rw [← he]; exact hd
    rw [← ih (text ++ "Hello World\n") hr hd2]
    simp [event_loop, windows_live, he]

theorem run_model_start (status : Int) (evs : List Event) (argc : Int) (argv : List String) :
    g_application_run_model status evs
      { application_id := "org.gtk.example", flags := G_APPLICATION_FLAGS_NONE,
        handlers := [⟨"activate", .activate, none, false⟩], lifecycle := [.created],
        released := false, toolkit := Toolkit.init } 0 argc argv =
    event_loop status 0 evs
      { application_id := "org.gtk.example", flags := G_APPLICATION_FLAGS_NONE,
        handlers := [⟨"activate", .activate, none, false⟩],
        lifecycle := [.created, .running],
        released := false, toolkit := live Toolkit.init 0 "" } := by
  simp [g_application_run_model, invoke, activate_eq]


theorem main_model (status : Int) (evs : List Event) (argc : Int) (argv : List String) :
    main (g_application_run_model status evs) argc argv =
      match event_loop status 0 evs
        { application_id := "org.gtk.example", flags := G_APPLICATION_FLAGS_NONE,
          handlers := [⟨"activate", .activate, none, false⟩],
          lifecycle := [.created, .running],
          released := false, toolkit := live Toolkit.init 0 "" } with
      | none => none
      | some (st, p) => some (st, g_object_unref p 0) := by
  rw [← run_model_start status evs argc argv]
  rfl

theorem main_model_closed (status : Int) (pre rest : List Event) (closing : Event)
    (argc : Int) (argv : List String)
    (h : ∀ e ∈ pre, hello_click Toolkit.init e)
    (hc : closing = .click (quit_of Toolkit.init) ∨ closing = .close (window_of Toolkit.init)) :
    ∃ out, main (g_application_run_model status (pre ++ closing :: rest)) argc argv =
      some (status,
        { application_id := "org.gtk.example", flags := G_APPLICATION_FLAGS_NONE,
          handlers := [⟨"activate", .activate, none, false⟩],
          lifecycle := [.created, .running, .stopped],
          released := true, toolkit := gone Toolkit.init 0 out }) ∧
      dispatch_all (live Toolkit.init 0 "") pre = live Toolkit.init 0 out := by
  obtain ⟨out, ho⟩ := dispatch_all_hello Toolkit.init 0 pre h ""
  refine ⟨out, ?_, ho⟩
  have hg : dispatch (live Toolkit.init 0 out) closing = gone Toolkit.init 0 out := by
    rcases hc with rfl | rfl
    · exact click_quit_live Toolkit.init 0 out
    · exact close_live Toolkit.init 0 out
  rw [main_model, event_loop_hello status pre (closing :: rest) _ _ _ _ _ "" out h ho]
  simp only [event_loop, windows_live, hg, event_loop_gone]
  simp [g_object_unref]

theorem main_model_open (status : Int) (pre : List Event) (argc : Int) (argv : List String)
    (h : ∀ e ∈ pre, hello_click Toolkit.init e) :
    main (g_application_run_model status pre) argc argv = none := by
  obtain ⟨out, ho⟩ := dispatch_all_hello Toolkit.init 0 pre h ""
  have hl := event_loop_hello status pre [] "org.gtk.example" G_APPLICATION_FLAGS_NONE
    [⟨"activate", .activate, none, false⟩] [.created, .running] false "" out h ho
  simp only [List.append_nil] at hl
  rw [main_model, hl]
  simp [event_loop, windows_live]

/-- C9: with the event loop of section 4.2, whenever `main` returns, the
application has gone through `created`, `running`, `stopped` in that order and
nothing else, no window of the application is left, the application has been
released and the value returned is the status of the loop.  After any clicks on the
first two buttons, a click on the third button and the closing of the window
both end the loop, with the window destroyed, and `main` returns the same
result for both; as long as only the first two buttons are clicked the window
is there and the loop does not end.  The release comes after `stopped`: the
loop, run on the application while it is not released, leaves it in `stopped`
and still not released, the result of `main` is that process with the
application released and the status of the loop unchanged, and a released
application cannot be run. -/
theorem lifecycle_created_running_stopped (status : Int) (argc : Int) (argv : List String) :
    (∀ (evs : List Event) (r : Int × Process),
      main (g_application_run_model status evs) argc argv = some r →
      r.1 = status ∧ r.2.lifecycle = [.created, .running, .stopped] ∧
      r.2.windows 0 = [] ∧ r.2.released = true) ∧
    (∀ (pre rest : List Event) (closing : Event),
      (∀ e ∈ pre, hello_click Toolkit.init e) →
      (closing = .click (quit_of Toolkit.init) ∨ closing = .close (window_of Toolkit.init)) →
      ∃ q, main (g_application_run_model status (pre ++ closing :: rest)) argc argv =
          some (status, q) ∧
        destroyed_at q.toolkit (window_of Toolkit.init) = true ∧
        q.toolkit.toplevels = [] ∧
        q.lifecycle = [.created, .running, .stopped] ∧ q.released = true) ∧
    (∀ pre rest : List Event, (∀ e ∈ pre, hello_click Toolkit.init e) →
      main (g_application_run_model status (pre ++ .click (quit_of Toolkit.init) :: rest))
          argc argv =
        main (g_application_run_model status (pre ++ .close (window_of Toolkit.init) :: rest))
          argc argv) ∧
    (∀ pre : List Event, (∀ e ∈ pre, hello_click Toolkit.init e) →
      main (g_application_run_model status pre) argc argv = none) ∧
    (∀ (evs : List Event) (r : Int × Process),
      main (g_application_run_model status evs) argc argv = some r →
      ∃ p : Process,
        g_application_run_model status evs
          { application_id := "org.gtk.example", flags := G_APPLICATION_FLAGS_NONE,
            handlers := [⟨"activate", .activate, none, false⟩], lifecycle := [.created],
            released := false, toolkit := Toolkit.init } 0 argc argv = some (status, p) ∧
        p.released = false ∧ p.lifecycle = [.created, .running, .stopped] ∧
        p.windows 0 = [] ∧
        r = (status, g_object_unref p 0)) ∧
    (∀ (evs : List Event) (p : Process),
      g_application_run_model status evs (g_object_unref p 0) 0 argc argv = none) := by
  refine ⟨?_, ?_, ?_, ?_, ?_, ?_⟩
  · intro evs r h
    rw [main_model] at h
    cases hl : event_loop status 0 evs
        { application_id := "org.gtk.example", flags := G_APPLICATION_FLAGS_NONE,
          handlers := [⟨"activate", .activate, none, false⟩],
          lifecycle := [.created, .running],
          released := false, toolkit := live Toolkit.init 0 "" } with
    | none => rw [hl] at h; cases h
    | some x =>
      obtain ⟨st, p⟩ := x
      rw [hl] at h
      cases h
      obtain ⟨h1, h2, h3, _⟩ := event_loop_result status 0 evs _ _ hl
      exact ⟨h1, h2, h3, rfl⟩
  · intro pre rest closing h hc
    obtain ⟨out, hm, _⟩ := main_model_closed status pre rest closing argc argv h hc
    refine ⟨_, hm, ?_, ?_, rfl, rfl⟩
    · exact destroyed_at_gone Toolkit.init 0 out
    · simp [gone, Toolkit.init]
  · intro pre rest h
    obtain ⟨o1, h1, e1⟩ := main_model_closed status pre rest _ argc argv h (Or.inl rfl)
    obtain ⟨o2, h2, e2⟩ := main_model_closed status pre rest _ argc argv h (Or.inr rfl)
    have : live Toolkit.init 0 o1 = live Toolkit.init 0 o2 := by rw [← e1, ← e2]
    have ho : o1 = o2 := by
      have := congrArg Toolkit.output this
      simpa [live, Toolkit.init] using this
    rw [h1, h2, ho]
  · intro pre h
    exact main_model_open status pre argc argv h
  · intro evs r h
    rw [main_model] at h
    rw [run_model_start]
    cases hl : event_loop status 0 evs
        { application_id := "org.gtk.example", flags := G_APPLICATION_FLAGS_NONE,
          handlers := [⟨"activate", .activate, none, false⟩],
          lifecycle := [.created, .running],
          released := false, toolkit := live Toolkit.init 0 "" } with
    | none => rw [hl] at h; cases h
    | some x =>
      obtain ⟨st, p⟩ := x
      rw [hl] at h
      cases h
      obtain ⟨h1, h2, h3, h4⟩ := event_loop_result status 0 evs _ _ hl
      simp only at h1
      subst h1
      exact ⟨p, rfl, h4, h2, h3, rfl⟩
  · intro evs p
    simp [g_application_run_model, g_object_unref]

/-- Two runs of `main`: a click on the first button, then either a click on
the third button or the closing of the window; the results agree, and the run
ended by the third button returns the status of the loop with the application
stopped and released, one line printed and no top-level window left. -/
theorem lifecycle_created_running_stopped_witness :
    main (g_application_run_model 7 ([Event.click 2] ++ Event.click 4 :: [])) 1 ["a"] =
      main (g_application_run_model 7 ([Event.click 2] ++ Event.close 0 :: [])) 1 ["a"] ∧
    (main (g_application_run_model 7 [Event.click 2, Event.click 4]) 1 ["a"]).map
        (fun r => (r.1, r.2.lifecycle, r.2.released, r.2.toolkit.output,
          r.2.toolkit.toplevels)) =
      some (7, [Phase.created, Phase.running, Phase.stopped], true, "Hello World\n", []) ∧
    (g_application_run_model 7 [Event.click 2, Event.click 4]
        { application_id := "org.gtk.example", flags := G_APPLICATION_FLAGS_NONE,
          handlers := [⟨"activate", .activate, none, false⟩], lifecycle := [.created],
          released := false, toolkit := Toolkit.init } 0 1 ["a"]).map
        (fun r => (r.1, r.2.lifecycle, r.2.released)) =
      some (7, [Phase.created, Phase.running, Phase.stopped], false) :=
  ⟨(lifecycle_created_running_stopped 7 1 ["a"]).2.2.1 [Event.click 2] [] (by decide),
    by decide, by decide⟩

end Example2
